import Mathlib

/-!
Shallow embedding of the backup/restore orchestration core of the
percona-server-mongodb-operator repository:

* `pkg/psmdb/pbm` — the PBM agent command/status adapter
  (`IsNotConfigured`, `HasRunningOperation`, `LatestPITRChunk`,
  `CreateOrUpdateConfig`);
* `pkg/controller/perconaservermongodbrestore` — the restore
  reconciliation state machine (`Reconcile`, `getBackup`, `getStorage`,
  `updateStatus`).

Effectful calls (Kubernetes client reads/writes, `exec` into pods) are
modelled by explicit environment records carrying each call's result;
the Go control flow is translated branch by branch.  Payload fields of
storage descriptors that the embedded code never inspects are abstracted
to a single representative field.

Definitions come first, then the lemmas and the per-claim theorems,
witnesses and counterexamples.
-/

deriving instance DecidableEq for Except

/-! ## String helpers (Go `strings.Contains`, `strings.Split`) -/

/-- Character-list test: does the list begin with `pat`?  (Helper for the
Go `strings.Contains` model.) -/
def leadEq : List Char → List Char → Bool
  | [], _ => true
  | _ :: _, [] => false
  | a :: as2, b :: bs => a == b && leadEq as2 bs

/-- Does `pat` occur as a contiguous run inside the second list?  (Helper
for the Go `strings.Contains` model.) -/
def hasSub (pat : List Char) : List Char → Bool
  | [] => leadEq pat []
  | c :: cs => leadEq pat (c :: cs) || hasSub pat cs

/-- Go `strings.Contains s pat`. -/
def strContains (s pat : String) : Bool :=
  hasSub pat.data s.data

/-- Go `strings.Split` restricted to a one-character separator: splits the
character list at every occurrence of `sep`.  Always returns at least one
(possibly empty) segment, as `strings.Split` does. -/
def splitOnChar (sep : Char) : List Char → List (List Char)
  | [] => [[]]
  | c :: cs =>
    let r := splitOnChar sep cs
    if c = sep then [] :: r
    else
      match r with
      | [] => [[c]]
      | t :: ts => (c :: t) :: ts

/-- Go `s[len(s)-1]` on the non-empty result of `strings.Split`: the last
segment, defaulting to the empty segment on the (impossible) empty list. -/
def lastElem : List (List Char) → List Char
  | [] => []
  | a :: rest =>
    match rest with
    | [] => a
    | b :: bs => lastElem (b :: bs)

/-! ## PBM agent status model (`pkg/psmdb/pbm/status.go`) -/

/-- Field of the agent's JSON status: the currently running operation. -/
structure Running where
  opId : String
  status : String
  startTS : Int
  name : String
  type : String
  deriving DecidableEq

/-- One point-in-time chunk range `{start, end}` (epoch seconds); the Go
field `End` is rendered `stop` because `end` is a Lean keyword. -/
structure PITRRange where
  start : Int
  stop : Int
  deriving DecidableEq

/-- One point-in-time chunk of the agent status. -/
structure PITRChunk where
  range : PITRRange
  deriving DecidableEq

/-- The `pitrChunks` block of the agent status. -/
structure PITRChunks where
  size : Int
  chunks : List PITRChunk
  deriving DecidableEq

/-- One snapshot entry of the agent status backup inventory. -/
structure Snapshot where
  name : String
  size : Int
  status : String
  restoreTo : Int
  pbmVersion : String
  type : String
  source : String
  deriving DecidableEq

/-- The `backups` block of the agent status. -/
structure Backups where
  type : String
  path : String
  region : String
  snapshots : List Snapshot
  pitrChunks : PITRChunks
  deriving DecidableEq

/-- The agent's machine-readable status report (`pbm status -o json`),
restricted to the fields the embedded helpers read. -/
structure PBMStatus where
  backups : Backups
  pitrConf : Bool
  pitrRun : Bool
  pitrError : String
  running : Running
  deriving DecidableEq

/-- `pbm.IsNotConfigured` (`pkg/psmdb/pbm/config.go`): true when the error
text contains the sentinel substring `mongo: no documents in result`. -/
def IsNotConfigured (e : String) : Bool :=
  strContains e "mongo: no documents in result"

/-- `pbm.HasRunningOperation`: the `GetStatus` call is modelled by its
result (`Except` of error text or status).  On error: a NotConfigured
error is swallowed and reported as `ok false`; any other error is
propagated.  On success: reports whether `running.status` is non-empty. -/
def HasRunningOperation (statusRes : Except String PBMStatus) : Except String Bool :=
  match statusRes with
  | .error e => if IsNotConfigured e then .ok false else .error e
  | .ok s => .ok (s.running.status != "")

/-! ### Epoch formatting (Go `time.Unix(sec,0).UTC().Format` with layout `2006-01-02T15:04:05`) -/

/-- Two-digit zero-padded decimal. -/
def pad2 (n : Nat) : String :=
  if n < 10 then "0" ++ toString n else toString n

/-- Four-digit zero-padded decimal (Go year formatting for CE years). -/
def pad4 (n : Nat) : String :=
  if n < 10 then "000" ++ toString n
  else if n < 100 then "00" ++ toString n
  else if n < 1000 then "0" ++ toString n
  else toString n

/-- Proleptic-Gregorian civil date from days since 1970-01-01 (the
standard era-based conversion used by civil-time libraries). -/
def civilFromDays (days : Int) : Int × Nat × Nat :=
  let z := days + 719468
  let era := z.fdiv 146097
  let doe := (z - era * 146097).toNat
  let yoe := (doe - doe / 1460 + doe / 36524 - doe / 146096) / 365
  let doy := doe - (365 * yoe + yoe / 4 - yoe / 100)
  let mp := (5 * doy + 2) / 153
  let d := doy - (153 * mp + 2) / 5 + 1
  let m := if mp < 10 then mp + 3 else mp - 9
  let y := era * 400 + yoe + (if m ≤ 2 then 1 else 0)
  (y, m, d)

/-- UTC rendering of an epoch-seconds timestamp in Go layout
`2006-01-02T15:04:05` (second precision, no timezone suffix). -/
def formatEpoch (t : Int) : String :=
  let days := t.fdiv 86400
  let secs := (t - days * 86400).toNat
  let c := civilFromDays days
  let hh := secs / 3600
  let mm := secs % 3600 / 60
  let ss := secs % 60
  pad4 c.1.toNat ++ "-" ++ pad2 c.2.1 ++ "-" ++ pad2 c.2.2 ++ "T" ++
    pad2 hh ++ ":" ++ pad2 mm ++ ":" ++ pad2 ss

/-- `pbm.LatestPITRChunk`: with `GetStatus` modelled by its result.  The Go
code indexes `Chunks[len(Chunks)-1]` unconditionally; on an empty chunk
list that is a runtime panic, modelled here as `none`.  Otherwise returns
the formatted end timestamp of the last chunk. -/
def LatestPITRChunk (statusRes : Except String PBMStatus) : Option (Except String String) :=
  match statusRes with
  | .error e => some (.error e)
  | .ok s =>
    match s.backups.pitrChunks.chunks.getLast? with
    | none => none
    | some c => some (.ok (formatEpoch c.range.stop))

/-! ## Go-map-backed association lists

Kubernetes object `Annotations` and secret `Data` are Go maps; their
observable behaviour (indexing, assignment, `delete`) is modelled by
association lists with the three operations below. -/

/-- Go map indexing `m[k]` returning `none` for a missing key. -/
def lookupA {α : Type} : List (String × α) → String → Option α
  | [], _ => none
  | (k2, v) :: rest, k => if k2 = k then some v else lookupA rest k

/-- Go `delete(m, k)`. -/
def eraseA {α : Type} : List (String × α) → String → List (String × α)
  | [], _ => []
  | (k2, v) :: rest, k => if k2 = k then eraseA rest k else (k2, v) :: eraseA rest k

/-- Go map assignment `m[k] = v`. -/
def insertA {α : Type} (m : List (String × α)) (k : String) (v : α) : List (String × α) :=
  (k, v) :: eraseA m k

/-! ## PBM configuration-secret synchronization (`pkg/psmdb/pbm/config.go`) -/

/-- The per-cluster PBM configuration secret: its annotations and its
`Data` map (values are the rendered YAML body, modelled as `String`). -/
structure Secret where
  annots : List (String × String)
  data : List (String × String)
  deriving DecidableEq

/-- Result of fetching the config secret from the object store. -/
inductive SecretGetErr
  | notFound
  | other (msg : String)
  deriving DecidableEq

/-- The write `CreateOrUpdateConfig` performs against the object store. -/
inductive SecretAction
  | create (s : Secret)
  | update (s : Secret)
  | noop
  deriving DecidableEq

/-- `pbm.CreateOrUpdateConfig`, from the point where the configuration has
been rendered and serialized: `cnfBytes` is the serialized body, `hash`
the content-hash function (SHA-256 in the source, abstracted to a
parameter), and `existing` the result of fetching the secret.  Returns the
object-store write performed (`create`/`update`/`noop`). -/
def CreateOrUpdateConfig (hash : String → String) (cnfBytes : String)
    (existing : Except SecretGetErr Secret) : Except String SecretAction :=
  match existing with
  | .error .notFound =>
    .ok (.create
      { annots := insertA [] "percona.com/config-sum" (hash cnfBytes),
        data := insertA [] "config.yaml" cnfBytes })
  | .error (.other m) => .error ("get secret: " ++ m)
  | .ok secret =>
    if lookupA secret.data "config.yaml" = some cnfBytes then
      .ok .noop
    else
      .ok (.update
        { secret with
          annots := insertA (eraseA secret.annots "percona.com/config-applied")
            "percona.com/config-sum" (hash cnfBytes),
          data := insertA secret.data "config.yaml" cnfBytes })

/-! ## Restore data model (`pkg/apis/psmdb/v1`, restricted to consumed fields) -/

/-- `psmdbv1.RestoreState`.  The embedded controller distinguishes only
`ready` and `error` (terminal) from the rest; `new`/`waiting`/`running`
stand for the non-terminal states. -/
inductive RestoreState
  | new
  | waiting
  | running
  | error
  | ready
  deriving DecidableEq

/-- `psmdbv1.BackupState` (lifecycle state of a `PerconaServerMongoDBBackup`). -/
inductive BackupState
  | new
  | waiting
  | requested
  | running
  | error
  | ready
  deriving DecidableEq

/-- S3 variant of a backup storage descriptor; the payload fields the
embedded code never inspects are abstracted to one representative. -/
structure BackupStorageS3Spec where
  bucket : String
  deriving DecidableEq

/-- Azure variant of a backup storage descriptor (payload abstracted). -/
structure BackupStorageAzureSpec where
  container : String
  deriving DecidableEq

/-- `psmdbv1.BackupStorageSpec`: a storage type tag (the Go string
constants `"s3"`, `"azure"`, `"filesystem"`, with `""` as zero value) plus
the per-variant blocks, which in Go are value structs whose zero value
means "not populated". -/
structure BackupStorageSpec where
  type : String
  s3 : BackupStorageS3Spec
  azure : BackupStorageAzureSpec
  deriving DecidableEq

/-- Zero value of `BackupStorageS3Spec`. -/
def zeroS3 : BackupStorageS3Spec := { bucket := "" }

/-- Zero value of `BackupStorageAzureSpec`. -/
def zeroAzure : BackupStorageAzureSpec := { container := "" }

/-- `psmdbv1.PerconaServerMongoDBBackupSpec` (consumed fields). -/
structure BackupSpec where
  clusterName : String
  storageName : String
  deriving DecidableEq

/-- `psmdbv1.PerconaServerMongoDBBackupStatus` (consumed fields).  The Go
`S3`/`Azure` fields are pointers, hence `Option` here. -/
structure BackupStatus where
  type : String
  state : BackupState
  destination : String
  storageName : String
  s3 : Option BackupStorageS3Spec
  azure : Option BackupStorageAzureSpec
  pbmName : String
  deriving DecidableEq

/-- `psmdbv1.PerconaServerMongoDBBackup` (consumed fields). -/
structure Backup where
  name : String
  namespc : String
  spec : BackupSpec
  status : BackupStatus
  deriving DecidableEq

/-- `psmdbv1.PSMDBBackupSpec` used as `RestoreSpec.BackupSource`: an inline
descriptor of an external backup. -/
structure BackupSource where
  type : String
  destination : String
  s3 : Option BackupStorageS3Spec
  azure : Option BackupStorageAzureSpec
  deriving DecidableEq

/-- `psmdbv1.PerconaServerMongoDBRestoreSpec` (consumed fields). -/
structure RestoreSpec where
  clusterName : String
  backupName : String
  storageName : String
  backupSource : Option BackupSource
  deriving DecidableEq

/-- `metav1.Condition` restricted to the fields the controller reads:
the condition type and its boolean status. -/
structure Condition where
  type : String
  status : Bool
  deriving DecidableEq

/-- `psmdbv1.PerconaServerMongoDBRestoreStatus` (consumed fields). -/
structure RestoreStatus where
  state : RestoreState
  error : String
  conditions : List Condition
  deriving DecidableEq

/-- `psmdbv1.PerconaServerMongoDBRestore` (consumed fields). -/
structure Restore where
  name : String
  namespc : String
  spec : RestoreSpec
  status : RestoreStatus
  deriving DecidableEq

/-- `meta.FindStatusCondition`: the condition with the given type, if any. -/
def findCondition (conds : List Condition) (t : String) : Option Condition :=
  conds.find? (fun c => c.type == t)

/-- `meta.SetStatusCondition` restricted to the modelled fields: replace
the condition with the same type, or append it if absent. -/
def setCondition (conds : List Condition) (c : Condition) : List Condition :=
  match conds with
  | [] => [c]
  | c2 :: rest => if c2.type = c.type then c :: rest else c2 :: setCondition rest c

/-! ## Backup source resolution (`perconaservermongodbrestore_controller.go`) -/

/-- The virtual backup view `getBackup` synthesizes from an inline backup
source (lines 280–298): state forced to `ready`, PBM name taken as the
segment of the destination after the last `/`. -/
def synthBackup (cr : Restore) (bs : BackupSource) : Backup :=
  { name := cr.name,
    namespc := cr.namespc,
    spec := { clusterName := cr.spec.clusterName, storageName := cr.spec.storageName },
    status :=
      { type := bs.type,
        state := .ready,
        destination := bs.destination,
        storageName := cr.spec.storageName,
        s3 := bs.s3,
        azure := bs.azure,
        pbmName := ⟨lastElem (splitOnChar '/' bs.destination.data)⟩ } }

/-- `getBackup`: if the request's backup name is empty and an inline
backup source is present, synthesize the virtual backup; otherwise
perform the identity lookup, whose result is the `lookup` argument. -/
def getBackup (cr : Restore) (lookup : Except String Backup) : Except String Backup :=
  if cr.spec.backupName.length = 0 then
    match cr.spec.backupSource with
    | some bs => .ok (synthBackup cr bs)
    | none => lookup
  else lookup

/-- Resolution failure of `getStorage`: the named storage alias is absent
from the cluster's storage map (`unable to get storage '%s'`). -/
inductive StorageErr
  | unknownStorage (name : String)
  deriving DecidableEq

/-- The cluster spec fields the embedded controller reads: the replset
names (`Spec.Replsets[i].Name`) and the backup storage map
(`Spec.Backup.Storages`). -/
structure Cluster where
  replsets : List String
  storages : List (String × BackupStorageSpec)
  deriving DecidableEq

/-- `getStorage` (lines 250–273): with a non-empty name, look the alias up
in the cluster's storage map and fail if absent.  With an empty name,
dereference `cr.Spec.BackupSource` — a nil pointer panic when the source
is absent, modelled as `none` — and build a descriptor whose type defaults
to S3, copying the Azure variant if set, else the S3 variant if set, else
leaving both variants zero. -/
def getStorage (cr : Restore) (cluster : Cluster) (storageName : String) :
    Option (Except StorageErr BackupStorageSpec) :=
  if 0 < storageName.length then
    match lookupA cluster.storages storageName with
    | none => some (.error (.unknownStorage storageName))
    | some stg => some (.ok stg)
  else
    match cr.spec.backupSource with
    | none => none
    | some bs =>
      match bs.azure with
      | some az => some (.ok { type := "azure", s3 := zeroS3, azure := az })
      | none =>
        match bs.s3 with
        | some s3v => some (.ok { type := "s3", s3 := s3v, azure := zeroAzure })
        | none => some (.ok { type := "s3", s3 := zeroS3, azure := zeroAzure })

/-! ## Status writer (`updateStatus`, lines 310–352) -/

/-- Kubernetes client error, as distinguished by the status writer:
`IsNotFound`, update conflicts, and everything else. -/
inductive KErr
  | notFound
  | conflict
  | other (msg : String)
  deriving DecidableEq

/-- One attempt of the fetch–overwrite–update–refetch body passed to
`retry.OnError`: the results of the two `Get`s and the `Status().Update`. -/
structure AttemptEnv where
  get1 : Except KErr RestoreStatus
  update : Except KErr Unit
  get2 : Except KErr RestoreStatus
  deriving DecidableEq

/-- The body of the retry closure in `updateStatus`: fetch the object,
overwrite its status, update, re-fetch, and report `status not updated`
when the re-fetched `State` differs from the intended one.  Only the
`State` field is compared. -/
def statusAttempt (intended : RestoreStatus) (a : AttemptEnv) : Option KErr :=
  match a.get1 with
  | .error e => some e
  | .ok _ =>
    match a.update with
    | .error e => some e
    | .ok _ =>
      match a.get2 with
      | .error e => some e
      | .ok st =>
        if st.state = intended.state then none
        else some (.other "status not updated")

/-- The retry predicate `func(error) bool { return true }` passed to
`retry.OnError` by `updateStatus`. -/
def alwaysRetry : KErr → Bool := fun _ => true

/-- Loop of `wait.ExponentialBackoff` as driven by `retry.OnError`:
run up to `fuel` attempts, stopping at the first success or the first
non-retriable error; when the step budget is exhausted,
`wait.ErrWaitTimeout` is replaced by the last attempt's error.  Returns
the final error (`none` = success) and the number of attempts made. -/
def retryOnError (retriable : KErr → Bool) (fn : Nat → Option KErr) :
    Nat → Nat → Option KErr → Option KErr × Nat
  | 0, made, lastErr => (lastErr, made)
  | fuel + 1, made, _lastErr =>
    match fn made with
    | none => (none, made + 1)
    | some e =>
      if retriable e then retryOnError retriable fn fuel (made + 1) (some e)
      else (some e, made + 1)

/-- The `wait.Backoff` literal of `updateStatus`: 5 steps, 500ms initial
duration, factor 5, jitter 0.1. -/
structure BackoffSpec where
  steps : Nat
  durationMs : Nat
  factor : ℚ
  jitter : ℚ
  deriving DecidableEq

/-- The backoff constants hard-coded in `updateStatus`. -/
def statusBackoff : BackoffSpec :=
  { steps := 5, durationMs := 500, factor := 5, jitter := 1 / 10 }

/-- `updateStatus` with its attempt count: run the retry loop over the
per-attempt environments, then treat a final `IsNotFound` error as
success; any other final error is the wrapped `write status` failure. -/
def updateStatusCount (intended : RestoreStatus) (env : Nat → AttemptEnv) :
    Option KErr × Nat :=
  let r := retryOnError alwaysRetry (fun i => statusAttempt intended (env i))
    statusBackoff.steps 0 none
  match r.1 with
  | none => (none, r.2)
  | some e => if e = .notFound then (none, r.2) else (some e, r.2)

/-- `updateStatus` proper: `none` is success, `some e` is the surfaced
write error. -/
def updateStatus (intended : RestoreStatus) (env : Nat → AttemptEnv) : Option KErr :=
  (updateStatusCount intended env).1

/-! ## Reconciliation tick (`Reconcile`, lines 101–248)

The Kubernetes and exec calls the tick makes are modelled by a
`ReconcileEnv` record carrying each call's result.  One subtlety of the
source is translated faithfully: inside the configuration-gate block the
Go statement `pod, err := ...` introduces a *shadowed* `err`, so failures
of the pod lookup, the config push and the cluster-status update return an
error to the controller without being seen by the deferred
status-finalization (the outer `err` is still nil there); only the field
check, the backup resolution, the backup-error state, the cluster fetch
and the dispatch failures reach the deferred block and force the status
to `error`. -/

/-- Results of the external calls a single reconcile tick may perform.
`Option String` fields are call errors (`none` = success); the dispatch
strategies return the updated status together with their error. -/
structure ReconcileEnv where
  backupGet : Except String Backup
  clusterGet : Except String Cluster
  podGet : Except String Unit
  setConfigFile : Option String
  setStorageConfig : Option String
  updateClusterStatus : Option String
  logicalRestore : RestoreStatus × Option String
  physicalRestore : RestoreStatus × Option String
  deriving DecidableEq

/-- Which configuration push the gate performed: `pbm.SetConfigFile` with
the named storage's config path, or `pbm.SetStorageConfig` with a storage
spec synthesized from the resolved backup. -/
inductive ConfigAction
  | file (storageName : String)
  | storage (stg : BackupStorageSpec)
  deriving DecidableEq

/-- Observable outcome of one reconcile tick: the status after the
deferred finalization, whether the five-second requeue result was
returned, the error returned to the controller, the dispatched restore
kind (if any), the configuration push performed (if any), and whether the
deferred block called `updateStatus`. -/
structure TickResult where
  status : RestoreStatus
  requeue : Bool
  retErr : Option String
  dispatched : Option String
  configAction : Option ConfigAction
  wroteStatus : Bool
  deriving DecidableEq

/-- Modelled from the spec: `cr.CheckFields()` is declared in
`pkg/apis/psmdb/v1`, which is not among the provided sources.  Per §4.4
step 1 it performs structural field checks on the request, and per the §3
data model a request must carry a target cluster identity and a backup
reference (exactly one of a named backup or an inline backup source). -/
def checkFields (spec : RestoreSpec) : Option String :=
  if spec.clusterName = "" then some "cluster name is empty"
  else if spec.backupName = "" ∧ spec.backupSource = none then
    some "backup name and backup source are empty"
  else none

/-- The deferred status-finalization (lines 124–138): a pending outer
error forces the state to `error` and records its text; the status write
happens iff state, error text or conditions changed. -/
def applyDefer (cr : Restore) (st : RestoreStatus) (deferErr : Option String) :
    RestoreStatus × Bool :=
  let st2 := match deferErr with
    | some msg => { st with state := RestoreState.error, error := msg }
    | none => st
  (st2, decide (cr.status.state ≠ st2.state ∨ cr.status.error ≠ st2.error ∨
    cr.status.conditions ≠ st2.conditions))

/-- Package a tick exit path: `st` is the working status at return,
`deferErr` the outer `err` the deferred block sees, `retErr` the error
returned to the controller. -/
def mkTick (cr : Restore) (st : RestoreStatus) (deferErr retErr : Option String)
    (requeue : Bool) (dispatched : Option String) (configAction : Option ConfigAction) :
    TickResult :=
  let d := applyDefer cr st deferErr
  { status := d.1, requeue := requeue, retErr := retErr, dispatched := dispatched,
    configAction := configAction, wroteStatus := d.2 }

/-- The storage spec the gate synthesizes from a resolved backup when the
request carries an inline backup source (lines 187–199): first matching
variant wins, and with neither variant set the zero spec is used. -/
def sourceStorageSpec (bcp : Backup) : BackupStorageSpec :=
  match bcp.status.s3 with
  | some s3v => { type := "s3", s3 := s3v, azure := zeroAzure }
  | none =>
    match bcp.status.azure with
    | some az => { type := "azure", s3 := zeroS3, azure := az }
    | none => { type := "", s3 := zeroS3, azure := zeroAzure }

/-- The configuration push the gate performs for a resolved backup:
the named storage's config file when the request has no inline source,
else the synthesized storage config. -/
def configPlan (cr : Restore) (bcp : Backup) : ConfigAction :=
  match cr.spec.backupSource with
  | none => .file bcp.spec.storageName
  | some _ => .storage (sourceStorageSpec bcp)

/-- One reconciliation tick (`Reconcile`), translated branch by branch.
`none` models a Go runtime panic (indexing `Spec.Replsets[0]` on a
cluster with no replsets); every other exit path yields a `TickResult`. -/
def reconcile (env : ReconcileEnv) (cr : Restore) : Option TickResult :=
  match checkFields cr.spec with
  | some msg =>
    some (mkTick cr cr.status (some msg) (some ("fields check: " ++ msg)) false none none)
  | none =>
    if cr.status.state = .ready ∨ cr.status.state = .error then
      some (mkTick cr cr.status none none false none none)
    else
      match getBackup cr env.backupGet with
      | .error e =>
        some (mkTick cr cr.status (some e) (some ("get backup: " ++ e)) true none none)
      | .ok bcp =>
        match bcp.status.state with
        | .error =>
          some (mkTick cr cr.status (some "backup is in error state") none true none none)
        | .ready =>
          if findCondition cr.status.conditions "PBMIsConfigured" = none then
            match env.clusterGet with
            | .error e =>
              some (mkTick cr cr.status (some e) (some ("get cluster: " ++ e)) true none none)
            | .ok cluster =>
              match cluster.replsets with
              | [] => none
              | rs0 :: _ =>
                match env.podGet with
                | .error e =>
                  some (mkTick cr cr.status none
                    (some ("get pod for rs/" ++ rs0 ++ ": " ++ e)) true none none)
                | .ok _ =>
                  let act := configPlan cr bcp
                  let pushErr := match cr.spec.backupSource with
                    | none => env.setConfigFile
                    | some _ => env.setStorageConfig
                  match pushErr with
                  | some e =>
                    some (mkTick cr cr.status none (some ("set pbm config: " ++ e))
                      true none (some act))
                  | none =>
                    let updErr :=
                      if bcp.spec.storageName ≠ "" then env.updateClusterStatus else none
                    match updErr with
                    | some e =>
                      some (mkTick cr cr.status none
                        (some ("update cluster status: " ++ e)) true none (some act))
                    | none =>
                      let conds2 := setCondition cr.status.conditions ⟨"PBMIsConfigured", true⟩
                      some (mkTick cr { cr.status with conditions := conds2 }
                        none none true none (some act))
          else
            if bcp.status.type = "" ∨ bcp.status.type = "logical" then
              match env.logicalRestore with
              | (st, some e) =>
                some (mkTick cr st (some e) (some ("reconcile logical restore: " ++ e))
                  true (some "logical") none)
              | (st, none) => some (mkTick cr st none none true (some "logical") none)
            else if bcp.status.type = "physical" then
              match env.physicalRestore with
              | (st, some e) =>
                some (mkTick cr st (some e) (some ("reconcile physical restore: " ++ e))
                  true (some "physical") none)
              | (st, none) => some (mkTick cr st none none true (some "physical") none)
            else
              some (mkTick cr cr.status none none true none none)
        | _ =>
          some (mkTick cr cr.status none (some "backup is not ready") false none none)

/-- The status persisted after one tick: a panicking tick writes nothing,
so the stored status is unchanged. -/
def tickStatus (env : ReconcileEnv) (cr : Restore) : RestoreStatus :=
  match reconcile env cr with
  | none => cr.status
  | some t => t.status

/-- A sequence of reconciliation ticks on the same request: each tick's
resulting status becomes the next tick's starting status. -/
def runTicks (envs : List ReconcileEnv) (cr : Restore) : Restore :=
  envs.foldl (fun c e => { c with status := tickStatus e c }) cr

/-! ## Concrete fixtures used by witnesses and counterexamples -/

/-- A non-terminal restore status with no conditions. -/
def stNew : RestoreStatus := { state := .new, error := "", conditions := [] }

/-- An intended status used by the status-writer scenarios. -/
def stReady : RestoreStatus := { state := .ready, error := "", conditions := [] }

/-- A fetch–update–refetch attempt that succeeds and verifies. -/
def okAttempt (st : RestoreStatus) : AttemptEnv :=
  { get1 := .ok st, update := .ok (), get2 := .ok st }

/-- An attempt whose `Status().Update` hits a write conflict. -/
def conflictAttempt (st : RestoreStatus) : AttemptEnv :=
  { get1 := .ok st, update := .error .conflict, get2 := .ok st }

/-- An attempt whose initial `Get` finds the object deleted. -/
def notFoundAttempt : AttemptEnv :=
  { get1 := .error .notFound, update := .ok (), get2 := .error .notFound }

/-- Attempt sequence: `NotFound` on the first attempt, conflicts after. -/
def mixedEnv : Nat → AttemptEnv :=
  fun i => if i = 0 then notFoundAttempt else conflictAttempt stReady

/-- Attempt sequence: two conflicts, then verified success. -/
def twoConflictsEnv : Nat → AttemptEnv :=
  fun i => if i < 2 then conflictAttempt stReady else okAttempt stReady

/-- Attempt sequence: conflict at every attempt. -/
def allConflictEnv : Nat → AttemptEnv := fun _ => conflictAttempt stReady

/-- Attempt sequence: the object is gone at every attempt. -/
def allNotFoundEnv : Nat → AttemptEnv := fun _ => notFoundAttempt

/-- Cluster fixture with one replset and no named storages. -/
def clusterBare : Cluster := { replsets := ["rs0"], storages := [] }

/-- Environment fixture in which every external call fails or is idle. -/
def envIdle : ReconcileEnv :=
  { backupGet := .error "backup not found", clusterGet := .error "cluster not found",
    podGet := .error "no ready pod", setConfigFile := none, setStorageConfig := none,
    updateClusterStatus := none, logicalRestore := (stReady, none),
    physicalRestore := (stReady, none) }

/-- A structurally valid request already in Error state. -/
def crErrorValid : Restore :=
  { name := "r", namespc := "ns",
    spec :=
      { clusterName := "c", backupName := "b", storageName := "",
        backupSource := none },
    status := { state := .error, error := "boom", conditions := [] } }

/-- A structurally valid request already in Ready state. -/
def crReadyValid : Restore :=
  { name := "r", namespc := "ns",
    spec :=
      { clusterName := "c", backupName := "b", storageName := "",
        backupSource := none },
    status := { state := .ready, error := "", conditions := [] } }

/-- A request in Ready state whose cluster name is empty, so the field
check fails. -/
def crReadyInvalid : Restore :=
  { name := "r", namespc := "ns",
    spec :=
      { clusterName := "", backupName := "b", storageName := "",
        backupSource := none },
    status := { state := .ready, error := "", conditions := [] } }

/-- A Ready logical backup resolved by the identity lookup. -/
def bcpReady : Backup :=
  { name := "bkp", namespc := "ns",
    spec := { clusterName := "c", storageName := "stg" },
    status :=
      { type := "logical", state := .ready, destination := "s3://b/x",
        storageName := "stg", s3 := none, azure := none, pbmName := "x" } }

/-- Environment fixture in which the gate's external calls all succeed. -/
def envGateOk : ReconcileEnv :=
  { backupGet := .ok bcpReady, clusterGet := .ok clusterBare, podGet := .ok (),
    setConfigFile := none, setStorageConfig := none, updateClusterStatus := none,
    logicalRestore := (stReady, none), physicalRestore := (stReady, none) }

/-- A new request naming `bkp`, with no conditions recorded yet. -/
def crGate : Restore :=
  { name := "r", namespc := "ns",
    spec :=
      { clusterName := "c", backupName := "bkp", storageName := "",
        backupSource := none },
    status := stNew }

/-- The tick result of the gate tick on `crGate`. -/
def gateTickVal : TickResult :=
  { status := { state := .new, error := "", conditions := [⟨"PBMIsConfigured", true⟩] },
    requeue := true, retErr := none, dispatched := none,
    configAction := some (.file "stg"), wroteStatus := true }

/-- Re-fetched status fixture: same state as `stReady` but different error
text and conditions. -/
def fetchedDiffers : RestoreStatus :=
  { state := .ready, error := "stale text", conditions := [⟨"X", true⟩] }

/-- Attempt sequence whose first re-fetch returns `fetchedDiffers`. -/
def verifyDiffersEnv : Nat → AttemptEnv :=
  fun _ => { get1 := .ok stReady, update := .ok (), get2 := .ok fetchedDiffers }

/-- Attempt sequence failing once with a non-conflict error, then clean. -/
def otherErrThenOkEnv : Nat → AttemptEnv :=
  fun i => if i = 0 then
    { get1 := .error (.other "transport closed"), update := .ok (), get2 := .ok stReady }
  else okAttempt stReady

/-- Restore fixture with an empty storage name and an inline source none
of whose variants is populated. -/
def crNoVariant : Restore :=
  { name := "r", namespc := "ns",
    spec :=
      { clusterName := "c", backupName := "", storageName := "",
        backupSource := some
          { type := "", destination := "", s3 := none, azure := none } },
    status := stNew }

/-- Config secret fixture: stale body, with both annotations set. -/
def staleSecret : Secret :=
  { annots :=
      [("percona.com/config-applied", "true"), ("percona.com/config-sum", "oldsum")],
    data := [("config.yaml", "old-config")] }

/-- Agent status fixture with a single PITR chunk ending at epoch
1700000000. -/
def statusOneChunk : PBMStatus :=
  { backups :=
      { type := "", path := "", region := "", snapshots := [],
        pitrChunks := { size := 1, chunks := [⟨⟨1690000000, 1700000000⟩⟩] } },
    pitrConf := false, pitrRun := false, pitrError := "",
    running := { opId := "", status := "", startTS := 0, name := "", type := "" } }

/-- Restore fixture: names the backup `bkp` and also carries an inline
source; per C4 the lookup must win. -/
def crNamedBoth : Restore :=
  { name := "r", namespc := "ns",
    spec :=
      { clusterName := "c", backupName := "bkp", storageName := "stg",
        backupSource := some
          { type := "logical", destination := "s3://bucket/pfx/bkp-x",
            s3 := some { bucket := "bucket" }, azure := none } },
    status := stNew }

/-- Backup fixture returned by the identity lookup. -/
def bcpLooked : Backup :=
  { name := "bkp", namespc := "ns",
    spec := { clusterName := "c", storageName := "stg" },
    status :=
      { type := "logical", state := .ready, destination := "s3://bucket/other",
        storageName := "stg", s3 := none, azure := none, pbmName := "other" } }

/-- Restore fixture with an empty backup name and an inline source whose
destination has no slash. -/
def crSynthNoSlash : Restore :=
  { name := "r", namespc := "ns",
    spec :=
      { clusterName := "c", backupName := "", storageName := "stg",
        backupSource := some
          { type := "physical", destination := "plain-backup-name",
            s3 := none, azure := some { container := "cc" } } },
    status := stNew }

/-- The inline source of `crSynthNoSlash`. -/
def bsNoSlash : BackupSource :=
  { type := "physical", destination := "plain-backup-name",
    s3 := none, azure := some { container := "cc" } }

/-! ## General lemmas about the embedded helpers -/

theorem splitOnChar_ne_nil (sep : Char) (l : List Char) : splitOnChar sep l ≠ [] := by
  induction l with
  | nil => simp [splitOnChar]
  | cons c cs ih =>
    simp only [splitOnChar]
    split
    · simp
    · cases h : splitOnChar sep cs with
      | nil => exact absurd h ih
      | cons t ts => simp [h]

theorem splitOnChar_no_sep (sep : Char) (l : List Char) (h : ∀ c ∈ l, c ≠ sep) :
    splitOnChar sep l = [l] := by
  induction l with
  | nil => rfl
  | cons c cs ih =>
    have hc : c ≠ sep := h c (by simp)
    have hcs : ∀ x ∈ cs, x ≠ sep := fun x hx => h x (by simp [hx])
    simp only [splitOnChar, if_neg hc, ih hcs]

theorem lookupA_insertA_self {α : Type} (m : List (String × α)) (k : String) (v : α) :
    lookupA (insertA m k v) k = some v := by
  simp [insertA, lookupA]

theorem lookupA_eraseA_self {α : Type} (m : List (String × α)) (k : String) :
    lookupA (eraseA m k) k = none := by
  induction m with
  | nil => rfl
  | cons p rest ih =>
    obtain ⟨k2, v⟩ := p
    by_cases h : k2 = k
    · simp [eraseA, h, ih]
    · simp [eraseA, lookupA, h, ih]

theorem lookupA_insertA_ne {α : Type} (m : List (String × α)) (k k2 : String) (v : α)
    (h : k2 ≠ k) : lookupA (insertA m k v) k2 = lookupA (eraseA m k) k2 := by
  have hne : ¬ k = k2 := fun he => h he.symm
  simp [insertA, lookupA, hne]

theorem lookupA_eraseA_ne {α : Type} (m : List (String × α)) (k k2 : String)
    (h : k2 ≠ k) : lookupA (eraseA m k) k2 = lookupA m k2 := by
  induction m with
  | nil => rfl
  | cons p rest ih =>
    obtain ⟨k3, v⟩ := p
    simp only [eraseA]
    by_cases h3 : k3 = k
    · subst h3
      have hne : ¬ k3 = k2 := fun he => h he.symm
      rw [if_pos rfl]
      simp only [lookupA, if_neg hne]
      exact ih
    · rw [if_neg h3]
      simp only [lookupA]
      split
      · rfl
      · exact ih

/-! ## Claim C1: terminality of Ready and Error -/

theorem tickStatus_error_stays (env : ReconcileEnv) (cr : Restore)
    (h : cr.status.state = RestoreState.error) :
    (tickStatus env cr).state = RestoreState.error := by
  cases hcf : checkFields cr.spec with
  | some msg => simp [tickStatus, reconcile, hcf, mkTick, applyDefer]
  | none => simp [tickStatus, reconcile, hcf, h, mkTick, applyDefer]

theorem tickStatus_valid_terminal (env : ReconcileEnv) (cr : Restore)
    (hv : checkFields cr.spec = none)
    (h : cr.status.state = RestoreState.ready ∨ cr.status.state = RestoreState.error) :
    tickStatus env cr = cr.status := by
  simp [tickStatus, reconcile, hv, h, mkTick, applyDefer]

theorem runTicks_cons (e : ReconcileEnv) (es : List ReconcileEnv) (cr : Restore) :
    runTicks (e :: es) cr = runTicks es { cr with status := tickStatus e cr } := rfl

/-- Claim C1 (amended): Error is unconditionally terminal — over any
sequence of ticks the state stays Error; Ready is terminal for every
request whose structural field check passes (any tick then leaves the
whole status untouched), but the field check runs *before* the terminal
short-circuit, so a Ready request with invalid fields is moved to Error. -/
theorem reconcile_terminal_states (envs : List ReconcileEnv) (cr : Restore) :
    (cr.status.state = RestoreState.error →
      (runTicks envs cr).status.state = RestoreState.error) ∧
    (checkFields cr.spec = none →
      cr.status.state = RestoreState.ready ∨ cr.status.state = RestoreState.error →
      (runTicks envs cr).status = cr.status) := by
  induction envs generalizing cr with
  | nil => exact ⟨fun h => h, fun _ _ => rfl⟩
  | cons e es ih =>
    constructor
    · intro h
      rw [runTicks_cons]
      exact (ih _).1 (tickStatus_error_stays e cr h)
    · intro hv h
      rw [runTicks_cons, tickStatus_valid_terminal e cr hv h]
      exact (ih cr).2 hv h

/-- Claim C1 witness: two ticks leave an Error request's state Error and a
valid Ready request's status untouched. -/
theorem reconcile_terminal_states_witness :
    (runTicks [envIdle, envIdle] crErrorValid).status.state = RestoreState.error ∧
    (runTicks [envIdle, envIdle] crReadyValid).status = crReadyValid.status :=
  ⟨(reconcile_terminal_states [envIdle, envIdle] crErrorValid).1 rfl,
   (reconcile_terminal_states [envIdle, envIdle] crReadyValid).2 rfl (Or.inl rfl)⟩

/-- Claim C1 counterexample: the field check precedes the terminal
short-circuit, so a tick on a Ready request with invalid fields changes
the state from Ready to Error — Ready is not terminal for every request. -/
theorem reconcile_ready_not_terminal_cex :
    crReadyInvalid.status.state = RestoreState.ready ∧
    (tickStatus envIdle crReadyInvalid).state = RestoreState.error := by
  decide

/-! ## Claim C3: configuration gate -/

theorem findCondition_setCondition (conds : List Condition) (c : Condition) :
    findCondition (setCondition conds c) c.type = some c := by
  induction conds with
  | nil => simp [setCondition, findCondition]
  | cons c2 rest ih =>
    by_cases h : c2.type = c.type
    · simp [setCondition, h, findCondition]
    · have hbeq : (c2.type == c.type) = false := by simp [h]
      simp only [setCondition, if_neg h, findCondition] at ih ⊢
      simp only [List.find?_cons, hbeq]
      exact ih

theorem reconcile_dispatch_gated (env : ReconcileEnv) (cr : Restore) (t : TickResult)
    (hrec : reconcile env cr = some t) (hdisp : t.dispatched ≠ none) :
    findCondition cr.status.conditions "PBMIsConfigured" ≠ none := by
  intro hcond
  apply hdisp
  simp only [reconcile] at hrec
  repeat (first | split at hrec | (injection hrec with h; subst h; rfl) | contradiction | simp at hrec)

/-- Claim C3: restore execution is dispatched only when the
`PBMIsConfigured` condition is already present in the request's status;
and on a non-terminal request with a Ready resolved backup, an absent
condition and successful gate steps, the tick performs the configuration
push for the resolved backup source, records the condition, and requeues
without dispatching. -/
theorem reconcile_config_gate (env : ReconcileEnv) (cr : Restore) (bcp : Backup)
    (cluster : Cluster) (rs0 : String) (rss : List String)
    (hv : checkFields cr.spec = none)
    (hterm : ¬ (cr.status.state = RestoreState.ready ∨
      cr.status.state = RestoreState.error))
    (hb : getBackup cr env.backupGet = .ok bcp)
    (hready : bcp.status.state = .ready)
    (hcl : env.clusterGet = .ok cluster)
    (hrs : cluster.replsets = rs0 :: rss)
    (hpod : env.podGet = .ok ())
    (hpush1 : env.setConfigFile = none)
    (hpush2 : env.setStorageConfig = none)
    (hupd : env.updateClusterStatus = none) :
    (∀ env2 cr2 t, reconcile env2 cr2 = some t → t.dispatched ≠ none →
      findCondition cr2.status.conditions "PBMIsConfigured" ≠ none) ∧
    (findCondition cr.status.conditions "PBMIsConfigured" = none →
      ∀ t, reconcile env cr = some t →
        t.dispatched = none ∧ t.requeue = true ∧ t.retErr = none ∧
        t.configAction = some (configPlan cr bcp) ∧
        findCondition t.status.conditions "PBMIsConfigured" =
          some ⟨"PBMIsConfigured", true⟩) := by
  refine ⟨fun env2 cr2 t h hd => reconcile_dispatch_gated env2 cr2 t h hd, ?_⟩
  intro hcond t hrec
  have hcomp : reconcile env cr = some (mkTick cr
      { cr.status with
        conditions := setCondition cr.status.conditions ⟨"PBMIsConfigured", true⟩ }
      none none true none (some (configPlan cr bcp))) := by
    cases hbs : cr.spec.backupSource with
    | none =>
      simp [reconcile, hv, if_neg hterm, hb, hready, hcond, hcl, hrs, hpod, hbs,
        hpush1, hupd, configPlan]
    | some bs =>
      simp [reconcile, hv, if_neg hterm, hb, hready, hcond, hcl, hrs, hpod, hbs,
        hpush2, hupd, configPlan]
  rw [hcomp] at hrec
  injection hrec with h
  subst h
  refine ⟨rfl, rfl, rfl, rfl, ?_⟩
  exact findCondition_setCondition cr.status.conditions ⟨"PBMIsConfigured", true⟩

/-- Claim C3 witness: on the concrete gate tick, no dispatch happens, the
config push targets the named storage, the condition is recorded, and the
tick requeues. -/
theorem reconcile_config_gate_witness :
    gateTickVal.dispatched = none ∧ gateTickVal.requeue = true ∧
    gateTickVal.retErr = none ∧
    gateTickVal.configAction = some (configPlan crGate bcpReady) ∧
    findCondition gateTickVal.status.conditions "PBMIsConfigured" =
      some ⟨"PBMIsConfigured", true⟩ := by
  have h := (reconcile_config_gate envGateOk crGate bcpReady clusterBare "rs0" []
    rfl (by decide) rfl rfl rfl rfl rfl rfl rfl rfl).2 rfl gateTickVal (by decide)
  exact h

/-! ## Claims C5 and C9: status writer retry policy and verification -/

/-- Claim C5 counterexample: `NotFound` at the first attempt followed by
conflicts exhausting the retry budget yields a write error, not success —
the code only inspects the final attempt's error for `NotFound`, so "not
found at any attempt returns success" fails. -/
theorem updateStatus_notfound_first_attempt_cex :
    (mixedEnv 0).get1 = Except.error KErr.notFound ∧
    updateStatus stReady mixedEnv = some KErr.conflict := by
  decide

/-- Claim C5 (amended): the persist operation retries up to 5 attempts
with backoff constants 500ms initial duration, factor 5, jitter 0.1; two
conflicts followed by a successful verified write succeed after exactly 3
attempts; five consecutive conflicts surface a write error; and when the
object is not found at every attempt (the final attempt's error being
`NotFound`, as when it was deleted concurrently) the operation returns
success. -/
theorem updateStatus_retry_policy (st : RestoreStatus) (env : Nat → AttemptEnv) :
    statusBackoff = { steps := 5, durationMs := 500, factor := 5, jitter := 1 / 10 } ∧
    (env 0 = conflictAttempt st → env 1 = conflictAttempt st →
      (∀ i, 2 ≤ i → env i = okAttempt st) →
      updateStatusCount st env = (none, 3)) ∧
    ((∀ i, env i = conflictAttempt st) →
      updateStatusCount st env = (some .conflict, 5)) ∧
    ((∀ i, env i = notFoundAttempt) →
      updateStatusCount st env = (none, 5)) := by
  refine ⟨rfl, ?_, ?_, ?_⟩
  · intro h0 h1 h2
    simp [updateStatusCount, statusBackoff, retryOnError, h0, h1, h2 2 (by norm_num),
      statusAttempt, conflictAttempt, okAttempt, alwaysRetry]
  · intro h
    simp [updateStatusCount, statusBackoff, retryOnError, h 0, h 1, h 2, h 3, h 4,
      statusAttempt, conflictAttempt, alwaysRetry]
  · intro h
    simp [updateStatusCount, statusBackoff, retryOnError, h 0, h 1, h 2, h 3, h 4,
      statusAttempt, notFoundAttempt, alwaysRetry]

/-- Claim C5 witness: the amended theorem at the three concrete attempt
sequences. -/
theorem updateStatus_retry_policy_witness :
    updateStatusCount stReady twoConflictsEnv = (none, 3) ∧
    updateStatusCount stReady allConflictEnv = (some .conflict, 5) ∧
    updateStatusCount stReady allNotFoundEnv = (none, 5) := by
  refine ⟨(updateStatus_retry_policy stReady twoConflictsEnv).2.1 rfl rfl ?_,
    (updateStatus_retry_policy stReady allConflictEnv).2.2.1 fun i => rfl,
    (updateStatus_retry_policy stReady allNotFoundEnv).2.2.2 fun i => rfl⟩
  intro i hi
  simp [twoConflictsEnv, Nat.not_lt.mpr hi]

/-- Claim C9: the read-after-write verification compares only the `State`
field — a re-fetched object agreeing on `State` verifies even when error
text and conditions differ, so the write succeeds on the first attempt;
and the retry predicate accepts every error, so any failing attempt
(conflict or not) is retried the same way. -/
theorem updateStatus_verifies_state_only (intended fetched : RestoreStatus)
    (env : Nat → AttemptEnv) :
    (∀ e : KErr, alwaysRetry e = true) ∧
    (env 0 = { get1 := .ok intended, update := .ok (), get2 := .ok fetched } →
      fetched.state = intended.state →
      updateStatusCount intended env = (none, 1)) ∧
    (∀ e : KErr, statusAttempt intended (env 0) = some e →
      env 1 = okAttempt intended →
      updateStatusCount intended env = (none, 2)) := by
  refine ⟨fun e => rfl, ?_, ?_⟩
  · intro h0 hst
    simp [updateStatusCount, statusBackoff, retryOnError, h0, statusAttempt, hst]
  · intro e h0 h1
    have h1' : statusAttempt intended (env 1) = none := by
      rw [h1]
      simp [statusAttempt, okAttempt]
    simp [updateStatusCount, statusBackoff, retryOnError, h0, h1', alwaysRetry]

/-- Claim C9 witness: a first write whose re-fetch differs in error text
and conditions succeeds after 1 attempt; a non-conflict first failure is
retried and succeeds after 2 attempts. -/
theorem updateStatus_verifies_state_only_witness :
    updateStatusCount stReady verifyDiffersEnv = (none, 1) ∧
    updateStatusCount stReady otherErrThenOkEnv = (none, 2) :=
  ⟨(updateStatus_verifies_state_only stReady fetchedDiffers verifyDiffersEnv).2.1 rfl rfl,
   (updateStatus_verifies_state_only stReady stReady otherErrThenOkEnv).2.2
     (.other "transport closed") (by decide) (by decide)⟩

/-! ## Claim C6: storage resolution failure modes -/

/-- Claim C6 counterexample: with no storage name and no populated variant
of the inline descriptor, `getStorage` succeeds with a descriptor whose
type silently defaults to `s3` and whose variants are both zero — it does
not fail with a ResolutionError as the claim states. -/
theorem getStorage_no_variant_cex :
    getStorage crNoVariant clusterBare "" =
      some (.ok { type := "s3", s3 := zeroS3, azure := zeroAzure }) := by
  decide

/-- Claim C6 (amended): a named storage alias absent from the cluster's
storage map fails with a ResolutionError naming the missing alias; but
when no name is given, `getStorage` never fails: even with no populated
variant in the inline descriptor it succeeds, defaulting the storage type
to `s3` with both variant blocks zero. -/
theorem getStorage_resolution (cr : Restore) (cluster : Cluster) (storageName : String) :
    (0 < storageName.length → lookupA cluster.storages storageName = none →
      getStorage cr cluster storageName = some (.error (.unknownStorage storageName))) ∧
    (∀ bs, cr.spec.backupSource = some bs → bs.s3 = none → bs.azure = none →
      getStorage cr cluster "" =
        some (.ok { type := "s3", s3 := zeroS3, azure := zeroAzure })) := by
  constructor
  · intro hlen hmiss
    simp [getStorage, hlen, hmiss]
  · intro bs hbs hs3 haz
    simp [getStorage, hbs, hs3, haz]

/-- Claim C6 witness: the amended theorem at a missing alias and at the
variant-free inline descriptor. -/
theorem getStorage_resolution_witness :
    getStorage crNoVariant clusterBare "missing" =
      some (.error (.unknownStorage "missing")) ∧
    getStorage crNoVariant clusterBare "" =
      some (.ok { type := "s3", s3 := zeroS3, azure := zeroAzure }) :=
  ⟨(getStorage_resolution crNoVariant clusterBare "missing").1 (by decide) (by decide),
   (getStorage_resolution crNoVariant clusterBare "missing").2
     { type := "", destination := "", s3 := none, azure := none } rfl rfl rfl⟩

/-! ## Claim C7: idempotent configuration-artifact synchronization -/

/-- Claim C7: against an existing config secret, `CreateOrUpdateConfig`
performs no write when the rendered bytes equal the stored `config.yaml`;
when they differ it updates the secret in place with the
`percona.com/config-applied` annotation removed and
`percona.com/config-sum` set to the new content hash. -/
theorem createOrUpdateConfig_sync (hash : String → String) (cnfBytes : String)
    (secret : Secret) :
    (lookupA secret.data "config.yaml" = some cnfBytes →
      CreateOrUpdateConfig hash cnfBytes (.ok secret) = .ok .noop) ∧
    (lookupA secret.data "config.yaml" ≠ some cnfBytes →
      CreateOrUpdateConfig hash cnfBytes (.ok secret) = .ok (.update
        { secret with
          annots := insertA (eraseA secret.annots "percona.com/config-applied")
            "percona.com/config-sum" (hash cnfBytes),
          data := insertA secret.data "config.yaml" cnfBytes }) ∧
      lookupA (insertA (eraseA secret.annots "percona.com/config-applied")
        "percona.com/config-sum" (hash cnfBytes)) "percona.com/config-applied" = none ∧
      lookupA (insertA (eraseA secret.annots "percona.com/config-applied")
        "percona.com/config-sum" (hash cnfBytes)) "percona.com/config-sum" =
        some (hash cnfBytes) ∧
      lookupA (insertA secret.data "config.yaml" cnfBytes) "config.yaml" =
        some cnfBytes) := by
  constructor
  · intro h
    simp [CreateOrUpdateConfig, h]
  · intro h
    refine ⟨by simp [CreateOrUpdateConfig, h], ?_, lookupA_insertA_self _ _ _,
      lookupA_insertA_self _ _ _⟩
    rw [lookupA_insertA_ne _ _ _ _ (by decide), lookupA_eraseA_ne _ _ _ (by decide)]
    exact lookupA_eraseA_self _ _

/-- Claim C7 witness: the theorem at a stale secret (update path, marker
cleared, hash annotation refreshed) and at an up-to-date secret (no-op). -/
theorem createOrUpdateConfig_sync_witness :
    CreateOrUpdateConfig (fun _ => "newsum") "new-config" (.ok staleSecret) =
      .ok (.update
        { annots := [("percona.com/config-sum", "newsum")],
          data := [("config.yaml", "new-config")] }) ∧
    CreateOrUpdateConfig (fun _ => "oldsum2") "old-config" (.ok staleSecret) = .ok .noop := by
  constructor
  · have h := (createOrUpdateConfig_sync (fun _ => "newsum") "new-config" staleSecret).2
      (by decide)
    rw [h.1]
    rfl
  · exact (createOrUpdateConfig_sync (fun _ => "oldsum2") "old-config" staleSecret).1
      (by decide)

/-! ## Claim C2: NotConfigured reclassification -/

/-- Claim C2 counterexample: the error text `no documents in result`
contains the sentinel the claim quotes, yet `IsNotConfigured` does not
match it (the code's sentinel carries the `mongo: ` prefix), so
`HasRunningOperation` propagates the error instead of reporting idle. -/
theorem hasRunningOperation_short_sentinel_cex :
    strContains "no documents in result" "no documents in result" = true ∧
    IsNotConfigured "no documents in result" = false ∧
    HasRunningOperation (.error "no documents in result") =
      .error "no documents in result" := by
  decide

/-- Claim C2 (amended): the sentinel is `mongo: no documents in result`.
Every error whose text contains that sentinel is classified NotConfigured
and `HasRunningOperation` returns `(false, nil)`; every error not
containing it is propagated unchanged. -/
theorem hasRunningOperation_notConfigured (e : String) :
    (strContains e "mongo: no documents in result" = true →
      HasRunningOperation (.error e) = .ok false) ∧
    (strContains e "mongo: no documents in result" = false →
      HasRunningOperation (.error e) = .error e) := by
  constructor <;> intro h <;> simp [HasRunningOperation, IsNotConfigured, h]

/-- Claim C2 witness: the amended theorem at the code's sentinel and at an
unrelated error text. -/
theorem hasRunningOperation_notConfigured_witness :
    HasRunningOperation (.error "mongo: no documents in result") = .ok false ∧
    HasRunningOperation (.error "exec failed") = .error "exec failed" :=
  ⟨(hasRunningOperation_notConfigured "mongo: no documents in result").1 (by decide),
   (hasRunningOperation_notConfigured "exec failed").2 (by decide)⟩

/-! ## Claim C8: timestamp formatting of the latest PITR chunk -/

/-- Claim C8: for every agent status whose point-in-time chunk list is
non-empty, `LatestPITRChunk` returns the end epoch of the last chunk
formatted as `YYYY-MM-DDTHH:MM:SS` (UTC, second precision, no timezone
suffix); end epoch 1700000000 formats to `2023-11-14T22:13:20`; the empty
chunk list is an undefended precondition violation (a Go index panic,
modelled as `none`). -/
theorem latestPITRChunk_formats_last_end (s : PBMStatus) (c : PITRChunk)
    (h : s.backups.pitrChunks.chunks.getLast? = some c) :
    LatestPITRChunk (.ok s) = some (.ok (formatEpoch c.range.stop)) ∧
    formatEpoch 1700000000 = "2023-11-14T22:13:20" ∧
    (∀ s2 : PBMStatus, s2.backups.pitrChunks.chunks = [] →
      LatestPITRChunk (.ok s2) = none) := by
  refine ⟨?_, by decide, ?_⟩
  · simp [LatestPITRChunk, h]
  · intro s2 h2
    simp [LatestPITRChunk, h2]

/-- Claim C8 witness: the theorem applied to the one-chunk fixture. -/
theorem latestPITRChunk_witness :
    LatestPITRChunk (.ok statusOneChunk) = some (.ok "2023-11-14T22:13:20") := by
  have h := latestPITRChunk_formats_last_end statusOneChunk ⟨⟨1690000000, 1700000000⟩⟩ rfl
  rw [h.1, h.2.1]

/-! ## Claim C4: named backup takes precedence over the inline source -/

/-- Claim C4: when the request carries a non-empty backup name, `getBackup`
performs the identity lookup and its result is exactly the lookup's
result, whatever the inline source holds; the virtual backup is
synthesized only when the name is empty and an inline source is present;
with an empty name and no source the identity lookup (of the empty name)
is still performed. -/
theorem getBackup_named_precedence (cr : Restore) (lookup : Except String Backup) :
    (cr.spec.backupName ≠ "" → getBackup cr lookup = lookup) ∧
    (cr.spec.backupName = "" → ∀ bs, cr.spec.backupSource = some bs →
      getBackup cr lookup = .ok (synthBackup cr bs)) ∧
    (cr.spec.backupName = "" → cr.spec.backupSource = none →
      getBackup cr lookup = lookup) := by
  refine ⟨fun h => ?_, fun h bs hbs => ?_, fun h hn => ?_⟩
  · have hne : cr.spec.backupName.length ≠ 0 := by
      intro hl
      exact h (String.ext (List.length_eq_zero.mp hl))
    simp [getBackup, hne]
  · simp [getBackup, h, hbs]
  · simp [getBackup, h, hn]

/-- Claim C4 witness: with both a named backup and an inline source the
result is the identity lookup's backup, untouched by the inline source. -/
theorem getBackup_named_precedence_witness :
    getBackup crNamedBoth (.ok bcpLooked) = .ok bcpLooked :=
  (getBackup_named_precedence crNamedBoth (.ok bcpLooked)).1 (by decide)

/-! ## Claim C10: total synthesis from an inline source -/

/-- Claim C10: with an empty backup name and an inline source, `getBackup`
totally synthesizes a Ready virtual backup whose PBM name is the segment
of the destination after the last `/`; splitting always yields at least
one segment, and a destination without `/` (the empty string included)
maps to itself. -/
theorem getBackup_synthesis_total (cr : Restore) (bs : BackupSource)
    (lookup : Except String Backup)
    (hname : cr.spec.backupName = "") (hsrc : cr.spec.backupSource = some bs) :
    getBackup cr lookup = .ok (synthBackup cr bs) ∧
    (synthBackup cr bs).status.state = .ready ∧
    splitOnChar '/' bs.destination.data ≠ [] ∧
    (synthBackup cr bs).status.pbmName =
      ⟨lastElem (splitOnChar '/' bs.destination.data)⟩ ∧
    ((∀ ch ∈ bs.destination.data, ch ≠ '/') →
      (synthBackup cr bs).status.pbmName = bs.destination) := by
  refine ⟨by simp [getBackup, hname, hsrc], rfl, splitOnChar_ne_nil _ _, rfl, fun h => ?_⟩
  simp only [synthBackup, splitOnChar_no_sep '/' bs.destination.data h, lastElem]

/-- Claim C10 witness: the theorem applied to a slash-free destination:
synthesis succeeds, is Ready, and the PBM name is the whole destination. -/
theorem getBackup_synthesis_total_witness :
    getBackup crSynthNoSlash (.error "unused") = .ok (synthBackup crSynthNoSlash bsNoSlash) ∧
    (synthBackup crSynthNoSlash bsNoSlash).status.state = .ready ∧
    (synthBackup crSynthNoSlash bsNoSlash).status.pbmName = "plain-backup-name" := by
  have h := getBackup_synthesis_total crSynthNoSlash bsNoSlash (.error "unused") rfl rfl
  exact ⟨h.1, h.2.1, h.2.2.2.2 (by decide)⟩
